import Mathlib

/-!
Shallow embedding of the ts-jest transform decision engine and
configuration-set cache (`src/ts-jest-transformer.ts`), together with
spec-modelled versions of the collaborators that the repository uses but
whose sources are not part of this snapshot (`ConfigSet` derivation,
`stringify`/`JsonableValue` serialization, `sha1`, the extension
constants and the warning message catalogue).

Object identity (`===` in JavaScript) is modelled by tagging each raw
configuration object with a numeric identity (`ConfigObj.objId`); deep
equality and `stringify`-equality are equality of the structural content.
The static class field `TsJestTransformer._cachedConfigSets` together
with the transformer's `_transformCfgStr` instance field is modelled as
an explicit `TransformerState` threaded through the operations; fresh
`new ConfigSet(...)` allocations take their identity from the state's
allocation counter.
-/

set_option maxRecDepth 20000

/-- Suffix test on strings (the semantics of JavaScript `String.endsWith`
and of the anchored-suffix extension regexes), computed on the character
lists. -/
def strEndsWith (s suffix : String) : Bool :=
  List.isSuffixOf suffix.data s.data

/-- Modelled from the spec (section 4.1, `utils/sha1`): a hexadecimal digit
character for a value below 16, `0`-`9` then `a`-`f`. -/
def hexDigit (n : Nat) : Char :=
  if n < 10 then Char.ofNat (48 + n) else Char.ofNat (87 + n)

/-- Big-endian hexadecimal digits of `n`, exactly `k` characters wide. -/
def hexChars : Nat → Nat → List Char
  | 0, _ => []
  | k + 1, n => hexChars k (n / 16) ++ [hexDigit (n % 16)]

/-- A character is one of the sixteen lowercase hexadecimal digits. -/
def isHexDigitChar (c : Char) : Bool :=
  ('0' ≤ c && c ≤ '9') || ('a' ≤ c && c ≤ 'f')

/-- Modulus bounding the modelled digest state: 16^40, so that the digest
renders as exactly 40 hexadecimal characters. -/
def hashModulus : Nat := 16 ^ 40

/-- Modelled from the spec (section 4.1): the accumulating state of the
content digest over a character sequence. -/
def strHash (l : List Char) : Nat :=
  l.foldl (fun a c => (a * 131 + c.toNat + 1) % hashModulus) 7

/-- Modelled from the spec (section 4.1, `utils/sha1`): the variadic
`sha1(...args)` helper concatenates its argument segments and returns a
fixed-length 40-character hexadecimal content digest of the result. -/
def sha1 (args : List String) : String :=
  String.mk (hexChars 40 (strHash (String.join args).data))

/-- Modelled from the spec (`constants.ts` `DECLARATION_TYPE_EXT`): the
type-declaration extension. -/
def declarationTypeExt : String := ".d.ts"

/-- Modelled from the spec (`constants.ts` `JS_JSX_REGEX`): whether a path
matches the JS/JSX suffix pattern. -/
def isJsPath (p : String) : Bool :=
  strEndsWith p ".js" || strEndsWith p ".jsx"

/-- Modelled from the spec (`constants.ts` `TS_TSX_REGEX`): whether a path
matches the TS/TSX suffix pattern. -/
def isTsPath (p : String) : Bool :=
  strEndsWith p ".ts" || strEndsWith p ".tsx"

/-- Modelled from the spec: the plugin-specific options carried under the
`ts-jest` key of the raw configuration's `globals`. The stringify pattern
is modelled as an optional path suffix (the common anchored-suffix form of
`stringifyContentPathRegex`); `allowJs` models the inline `tsconfig`
compiler-option override and `babelConfig` whether a secondary babel-jest
transform is configured. -/
structure TsJestGlobals where
  stringifyContentPathRegex : Option String
  allowJs : Option Bool
  babelConfig : Bool
  deriving DecidableEq, Repr

/-- Structural content of a raw runner configuration (`Config.ProjectConfig`):
the fields the engine reads or strips, plus opaque key-value remainders for
the rest of `globals` and the rest of the configuration. -/
structure RawConfig where
  name : Option String
  cacheDirectory : Option String
  rootDir : String
  tsJest : Option TsJestGlobals
  otherGlobals : List (String × String)
  rest : List (String × String)
  deriving DecidableEq, Repr

/-- A raw configuration object: structural content tagged with a JavaScript
object identity. Two distinct live objects carry distinct `objId`s even when
their content is deeply equal. -/
structure ConfigObj where
  objId : Nat
  content : RawConfig
  deriving DecidableEq, Repr

/-- Render an optional field of a serialization. -/
def serializeOpt (f : α → String) : Option α → String
  | none => "null"
  | some a => "some(" ++ f a ++ ")"

/-- Render an opaque key-value remainder of a serialization. -/
def serializePairs (l : List (String × String)) : String :=
  String.join (l.map (fun p => p.1 ++ "=" ++ p.2 ++ ";"))

/-- Serialization of the plugin-specific globals. -/
def serializeTsJestGlobals (g : TsJestGlobals) : String :=
  "(sregex=" ++ serializeOpt id g.stringifyContentPathRegex ++
    ",allowJs=" ++ serializeOpt (fun b => toString b) g.allowJs ++
    ",babelConfig=" ++ toString g.babelConfig ++ ")"

/-- Modelled from the spec (section 4.1, `utils/json` `stringify` /
`JsonableValue.serialized`): canonical, deterministic serialization of a raw
configuration; deeply equal configurations (equal `RawConfig` content)
produce identical output. -/
def serializeConfig (c : RawConfig) : String :=
  "(name=" ++ serializeOpt id c.name ++
    ",cacheDirectory=" ++ serializeOpt id c.cacheDirectory ++
    ",rootDir=" ++ c.rootDir ++
    ",globals.ts-jest=" ++ serializeOpt serializeTsJestGlobals c.tsJest ++
    ",globals.other=" ++ serializePairs c.otherGlobals ++
    ",rest=" ++ serializePairs c.rest ++ ")"

/-- Two-character hexadecimal rendering of a byte value. -/
def hexByte (n : Nat) : String :=
  String.mk [hexDigit (n / 16 % 16), hexDigit (n % 16)]

/-- JSON escaping of a single character, as `JSON.stringify` performs it. -/
def escapeJsonChar (c : Char) : String :=
  if c = '"' then "\\\""
  else if c = '\\' then "\\\\"
  else if c = '\n' then "\\n"
  else if c = '\r' then "\\r"
  else if c = '\t' then "\\t"
  else if c.toNat < 32 then "\\u00" ++ hexByte c.toNat
  else String.singleton c

/-- Modelled from the spec (`utils/json` `stringify` applied to a string
value, as in the stringify-as-module branch): the JSON-quoted, JSON-escaped
form of a string. -/
def stringifyString (s : String) : String :=
  "\"" ++ String.join (s.data.map escapeJsonChar) ++ "\""

/-- Modelled from the spec (section 3): the digest representing the plugin's
own version/behavior-affecting state, a per-release constant. -/
def tsJestVersionDigest : String := "ts-jest-digest-26"

/-- Modelled from the spec (sections 2 and 6, `config/config-set.ts`): the
normalized Configuration Set derived from one raw configuration, tagged with
the identity of the `new ConfigSet(...)` allocation that created it. The
`afterProcess` hook is an internal test seam configured outside the raw
configuration and is modelled as absent. -/
structure ConfigSet where
  objId : Nat
  rootDir : String
  tsJestDigest : String
  babelConfig : Bool
  allowJs : Bool
  tsconfigRaw : String
  stringifyContentPathMatch : Option String
  deriving DecidableEq, Repr

/-- Modelled from the spec: derivation of a Configuration Set from the raw
configuration content, given a fresh allocation identity. -/
def mkConfigSet (allocId : Nat) (c : RawConfig) : ConfigSet :=
  { objId := allocId
    rootDir := c.rootDir
    tsJestDigest := tsJestVersionDigest
    babelConfig := (c.tsJest.map (fun g => g.babelConfig)).getD false
    allowJs := (c.tsJest.bind (fun g => g.allowJs)).getD false
    tsconfigRaw := serializeOpt (fun b => toString b) (c.tsJest.bind (fun g => g.allowJs))
    stringifyContentPathMatch := c.tsJest.bind (fun g => g.stringifyContentPathRegex) }

/-- Whether a secondary babel-jest transform is configured for this
Configuration Set (`configs.babelJestTransformer` being defined). -/
def hasBabelJest (cs : ConfigSet) : Bool :=
  cs.babelConfig

/-- Whether the Configuration Set's stringify pattern matches the path
(`configs.shouldStringifyContent(filePath)`). -/
def shouldStringifyContent (cs : ConfigSet) (filePath : String) : Bool :=
  match cs.stringifyContentPathMatch with
  | none => false
  | some suf => strEndsWith filePath suf

/-- The shallow-copy-and-clear step of the transform-signature computation
(`ts-jest-transformer.ts` lines 64-71): the copied configuration with `name`
and `cacheDirectory` cleared and the `ts-jest` key deleted from the copied
`globals`. -/
def stripConfig (c : RawConfig) : RawConfig :=
  { c with name := none, cacheDirectory := none, tsJest := none }

/-- Serialization of the transform-signature record (`new JsonableValue({digest,
babel, ...jest, tsconfig}).serialized`, lines 72-80) for an already-stripped
jest configuration: the plugin digest, the resolved babel configuration, the
jest configuration fields, and the resolved compiler options and raw
compiler config of the Configuration Set. -/
def signaturePayloadStr (cs : ConfigSet) (jest : RawConfig) : String :=
  "(digest=" ++ cs.tsJestDigest ++
    ",babel=" ++ toString cs.babelConfig ++
    ",jest=" ++ serializeConfig jest ++
    ",tsconfig.options.allowJs=" ++ toString cs.allowJs ++
    ",tsconfig.raw=" ++ cs.tsconfigRaw ++ ")"

/-- The transform signature (`this._transformCfgStr`, lines 64-80): the
signature payload serialized over the copied-and-stripped configuration. -/
def mkTransformCfgStr (cs : ConfigSet) (c : RawConfig) : String :=
  signaturePayloadStr cs (stripConfig c)

/-- One entry of the static `TsJestTransformer._cachedConfigSets` registry:
the identity of the stored raw configuration object (`jestConfig.value`),
its serialized form (`jestConfig.serialized`), the derived Configuration Set
and the transform signature. -/
structure CachedConfigSet where
  identity : Nat
  serialized : String
  configSet : ConfigSet
  transformerCfgStr : String
  deriving DecidableEq, Repr

/-- The process-wide mutable state: the cached config-set registry plus the
allocation counter supplying identities for fresh `new ConfigSet(...)`
objects. -/
structure TransformerState where
  cachedConfigSets : List CachedConfigSet
  nextAlloc : Nat
  deriving DecidableEq, Repr

/-- The state of a freshly started process: empty registry. -/
def TransformerState.empty : TransformerState :=
  { cachedConfigSets := [], nextAlloc := 0 }

/-- The serialized-form scan of `configsFor` (lines 48-58): find the first
entry whose stored serialized form equals `ser`, rebind its stored object
identity to `id`, and return its Configuration Set, its transform signature
and the updated registry. -/
def findAndRebind (id : Nat) (ser : String) :
    List CachedConfigSet → Option (ConfigSet × String × List CachedConfigSet)
  | [] => none
  | e :: rest =>
    if e.serialized == ser then
      some (e.configSet, e.transformerCfgStr, { e with identity := id } :: rest)
    else
      match findAndRebind id ser rest with
      | none => none
      | some (cs, sig, rest') => some (cs, sig, e :: rest')

/-- Embedding of `TsJestTransformer.configsFor` (lines 38-90): identity
lookup, then serialized-form lookup with identity rebinding, then creation
of a fresh Configuration Set, transform signature and registry entry.
Returns the Configuration Set, the transformer's `_transformCfgStr` as set
by the call, and the updated state. -/
def configsFor (st : TransformerState) (jestConfig : ConfigObj) :
    ConfigSet × String × TransformerState :=
  match st.cachedConfigSets.find? (fun cs => cs.identity == jestConfig.objId) with
  | some ccs => (ccs.configSet, ccs.transformerCfgStr, st)
  | none =>
    let serializedJestCfg := serializeConfig jestConfig.content
    match findAndRebind jestConfig.objId serializedJestCfg st.cachedConfigSets with
    | some (cs, sig, entries') => (cs, sig, { st with cachedConfigSets := entries' })
    | none =>
      let configSet := mkConfigSet st.nextAlloc jestConfig.content
      let sig := mkTransformCfgStr configSet jestConfig.content
      (configSet, sig,
        { cachedConfigSets := st.cachedConfigSets ++
            [{ identity := jestConfig.objId
               serialized := serializedJestCfg
               configSet := configSet
               transformerCfgStr := sig }]
          nextAlloc := st.nextAlloc + 1 })

/-- The caller-supplied transform options of `process` (`TransformOptions`):
the instrumentation flag plus an opaque extra field standing for the other
options the spread copies through. -/
structure TransformOptions where
  instrument : Option Bool
  extraField : Option String
  deriving DecidableEq, Repr

/-- The options of `getCacheKey` (`CacheKeyOptions`): the live configuration
object plus optional instrumentation flag and root directory. -/
structure CacheKeyOptions where
  config : ConfigObj
  instrument : Option Bool
  rootDir : Option String
  deriving DecidableEq, Repr

/-- The spread `{...transformOptions, instrument: false}` of line 142:
whatever was supplied (possibly nothing), with `instrument` forced to
`false`. -/
def spreadInstrumentOff : Option TransformOptions → TransformOptions
  | none => { instrument := some false, extraField := none }
  | some t => { t with instrument := some false }

/-- The warning messages of `utils/messages` the engine emits, as tags. -/
inductive WarnMessage
  | gotJsFileButAllowJsFalse
  | gotUnknownFileTypeWithBabel
  | gotUnknownFileTypeWithoutBabel
  deriving DecidableEq, Repr

/-- One warning-level log record, tagged with the offending file path.
Debug/info records are not modelled. -/
structure WarnRecord where
  fileName : String
  message : WarnMessage
  deriving DecidableEq, Repr

/-- Head of the interpolated disallowed-JS warning text. -/
def allowJsWarnHead : String :=
  "Got a `.js` file to compile while `allowJs` option is not set to `true` (file: "

/-- Tail of the interpolated disallowed-JS warning text, carrying the two
remediation bullet points. -/
def allowJsWarnTail : String :=
  "). To fix this: - if you want TypeScript to process JS files, set `allowJs` to `true` in your TypeScript config (usually tsconfig.json) - if you do not want TypeScript to process your `.js` files, in your Jest config change the `transform` key which value is `ts-jest` so that it does not match `.js` files anymore"

/-- Modelled from the spec (`utils/messages` `Errors` and `interpolate`):
the rendered text of a warning record. -/
def renderWarn (w : WarnRecord) : String :=
  match w.message with
  | WarnMessage.gotJsFileButAllowJsFalse => allowJsWarnHead ++ w.fileName ++ allowJsWarnTail
  | WarnMessage.gotUnknownFileTypeWithBabel =>
      "Got a unknown file type to compile (file: " ++ w.fileName ++ "). To fix this, in your Jest config change the `transform` key which value is `ts-jest` so that it does not match this kind of files anymore. If you still want ts-jest to run on this file, add the extension to the `babelConfig` handled ones."
  | WarnMessage.gotUnknownFileTypeWithoutBabel =>
      "Got a unknown file type to compile (file: " ++ w.fileName ++ "). To fix this, in your Jest config change the `transform` key which value is `ts-jest` so that it does not match this kind of files anymore."

/-- The injected collaborator functions: the compiler wrapper
(`configs.tsCompiler.compile`) and the secondary babel-jest transform
(`configs.babelJestTransformer.process`, flattened to its code string). -/
structure Collaborators where
  compile : String → String → String
  babelProcess : String → String → ConfigObj → TransformOptions → String

/-- The five-way classification of `process` (lines 109-136): the selected
branch's output together with the warning records it emits.
`babelJestPresent` reflects the `babelJest` binding of line 108 and selects
the phrasing of the unknown-extension warning. -/
def classifyOutput (cb : Collaborators) (configs : ConfigSet) (babelJestPresent : Bool)
    (input filePath : String) : String × List WarnRecord :=
  let isDefinitionFile := strEndsWith filePath declarationTypeExt
  let isJsFile := isJsPath filePath
  let isTsFile := !isDefinitionFile && isTsPath filePath
  if shouldStringifyContent configs filePath then
    ("module.exports=" ++ stringifyString input, [])
  else if isDefinitionFile then
    ("", [])
  else if !configs.allowJs && isJsFile then
    (input, [{ fileName := filePath, message := WarnMessage.gotJsFileButAllowJsFalse }])
  else if isJsFile || isTsFile then
    (cb.compile input filePath, [])
  else
    (input,
      [{ fileName := filePath
         message := if babelJestPresent then WarnMessage.gotUnknownFileTypeWithBabel
           else WarnMessage.gotUnknownFileTypeWithoutBabel }])

/-- Embedding of `TsJestTransformer.process` (lines 95-156): resolve the
Configuration Set, classify the file, and pipe the branch output through the
secondary transform when one is bound (line 108 leaves it unbound when the
stringify pattern matched). Returns the final code, the warning records
emitted, and the updated state. The `afterProcess` hook is modelled as
absent (internal test seam, not derivable from the raw configuration). -/
def process (cb : Collaborators) (st : TransformerState) (input filePath : String)
    (jestConfig : ConfigObj) (transformOptions : Option TransformOptions) :
    String × List WarnRecord × TransformerState :=
  let r := configsFor st jestConfig
  let configs := r.1
  let sstr := shouldStringifyContent configs filePath
  let babelJestPresent := !sstr && hasBabelJest configs
  let branch := classifyOutput cb configs babelJestPresent input filePath
  let result :=
    if babelJestPresent then
      cb.babelProcess branch.1 filePath jestConfig (spreadInstrumentOff transformOptions)
    else branch.1
  (result, branch.2, r.2.2)

/-- The `instrument:` segment of the cache-key digest input. -/
def instrStr (instrument : Bool) : String :=
  "instrument:" ++ (if instrument then "on" else "off")

/-- The byte string over which `getCacheKey` computes its digest (lines
178-188): the five cache-key dimensions joined with null separators. -/
def cacheKeyDigestInput (cfgStr rootDir : String) (instrument : Bool)
    (fileContent filePath : String) : String :=
  cfgStr ++ "\x00" ++ rootDir ++ "\x00" ++ instrStr instrument ++ "\x00" ++
    fileContent ++ "\x00" ++ filePath

/-- Embedding of `TsJestTransformer.getCacheKey` (lines 165-189): resolve
the Configuration Set from `transformOptions.config` (the serialized third
argument is ignored), default `instrument` to `false` and `rootDir` to the
set's root directory, and digest the five dimensions with null separators.
Returns the key and the updated state. -/
def getCacheKey (st : TransformerState) (fileContent filePath : String)
    (_jestConfigStr : String) (transformOptions : CacheKeyOptions) :
    String × TransformerState :=
  let r := configsFor st transformOptions.config
  let instrument := transformOptions.instrument.getD false
  let rootDir := transformOptions.rootDir.getD r.1.rootDir
  (sha1 [r.2.1, "\x00", rootDir, "\x00", instrStr instrument, "\x00", fileContent,
    "\x00", filePath], r.2.2)

/-! ## Explicit-heap model of the signature computation's mutations

The frame property of the transform-signature computation (lines 64-80) is
about JavaScript heap mutation: `{...jestConfig}` is a shallow copy whose
`globals` field still references the caller's globals object, and the code
takes a second copy of the globals before clearing fields and deleting the
`ts-jest` key. The following explicit heap of mutable objects embeds
exactly that sequence of allocations and in-place updates. -/

/-- A mutable `globals` object on the heap: the `ts-jest` key and the
remaining keys. -/
structure GlobalsObj where
  tsJest : Option TsJestGlobals
  otherGlobals : List (String × String)
  deriving DecidableEq, Repr

/-- The mutable own fields of a raw configuration object on the heap; the
`globals` field is a reference to a globals object. -/
structure ConfigFields where
  name : Option String
  cacheDirectory : Option String
  rootDir : String
  globalsRef : Nat
  rest : List (String × String)
  deriving DecidableEq, Repr

/-- A small JavaScript heap: configuration objects and globals objects
addressed by reference, plus the next fresh reference. -/
structure JsHeap where
  configObjs : List (Nat × ConfigFields)
  globalsObjs : List (Nat × GlobalsObj)
  nextRef : Nat
  deriving DecidableEq, Repr

/-- In-place update of the object stored at reference `k`. -/
def updateAssoc (k : Nat) (v : α) : List (Nat × α) → List (Nat × α)
  | [] => []
  | (k', v') :: rest =>
    if k' = k then (k, v) :: rest else (k', v') :: updateAssoc k v rest

/-- The structural configuration content denoted by a configuration object's
fields together with its dereferenced globals object. -/
def configOnHeap (f : ConfigFields) (g : GlobalsObj) : RawConfig :=
  { name := f.name
    cacheDirectory := f.cacheDirectory
    rootDir := f.rootDir
    tsJest := g.tsJest
    otherGlobals := g.otherGlobals
    rest := f.rest }

/-- The copy-and-mutate steps of lines 64-80 on the explicit heap:
`const jest = {...jestConfig}` allocates a shallow copy whose `globals`
field still references the caller's globals object; `const globals =
(jest.globals = {...jest.globals} as any)` allocates a copy of the globals
object and installs it into the copy; `jest.name = undefined` and
`jest.cacheDirectory = undefined` mutate the copy in place; `delete
globals['ts-jest']` mutates the copied globals in place; finally the
mutated copy is read back and serialized into the signature payload.
Returns the updated heap and the signature (`none` on a dangling
reference). -/
def computeTransformCfgStrOnHeap (h : JsHeap) (cfgRef : Nat) (cs : ConfigSet) :
    JsHeap × Option String :=
  match List.lookup cfgRef h.configObjs with
  | none => (h, none)
  | some f =>
    match List.lookup f.globalsRef h.globalsObjs with
    | none => (h, none)
    | some g =>
      let jestRef := h.nextRef
      let h1 : JsHeap :=
        { h with configObjs := (jestRef, f) :: h.configObjs, nextRef := h.nextRef + 1 }
      let gRef := h1.nextRef
      let h2 : JsHeap :=
        { h1 with globalsObjs := (gRef, g) :: h1.globalsObjs, nextRef := h1.nextRef + 1 }
      let strippedCopy : ConfigFields :=
        { f with globalsRef := gRef, name := none, cacheDirectory := none }
      let h3 : JsHeap :=
        { h2 with configObjs := updateAssoc jestRef strippedCopy h2.configObjs }
      let h4 : JsHeap :=
        { h3 with globalsObjs := updateAssoc gRef { g with tsJest := none } h3.globalsObjs }
      match List.lookup jestRef h4.configObjs, List.lookup gRef h4.globalsObjs with
      | some jf, some jg => (h4, some (signaturePayloadStr cs (configOnHeap jf jg)))
      | _, _ => (h4, none)

/-! ## Concrete fixtures -/

/-- A minimal raw configuration content. -/
def baseRaw : RawConfig :=
  { name := none, cacheDirectory := none, rootDir := "/root", tsJest := none,
    otherGlobals := [], rest := [] }

/-- A live configuration object named `x`. -/
def cfgNameA : ConfigObj := { objId := 0, content := { baseRaw with name := some "x" } }

/-- A distinct live configuration object named `y`, deeply equal to
`cfgNameA` after stripping the name field. -/
def cfgNameB : ConfigObj := { objId := 1, content := { baseRaw with name := some "y" } }

/-- Plugin globals selecting a stringify pattern for `.html` files. -/
def htmlGlobals : TsJestGlobals :=
  { stringifyContentPathRegex := some ".html", allowJs := none, babelConfig := false }

/-- A configuration whose stringify pattern matches `.html` files. -/
def cfgHtml : ConfigObj :=
  { objId := 0, content := { baseRaw with tsJest := some htmlGlobals } }

/-- Plugin globals selecting both a `.html` stringify pattern and a
secondary babel-jest transform. -/
def strBabelGlobals : TsJestGlobals :=
  { stringifyContentPathRegex := some ".html", allowJs := none, babelConfig := true }

/-- A configuration with both a stringify pattern and babel-jest. -/
def cfgStrBabel : ConfigObj :=
  { objId := 0, content := { baseRaw with tsJest := some strBabelGlobals } }

/-- Plugin globals whose stringify pattern matches declaration files. -/
def dtsStringifyGlobals : TsJestGlobals :=
  { stringifyContentPathRegex := some ".d.ts", allowJs := none, babelConfig := false }

/-- A configuration whose stringify pattern matches `.d.ts` files. -/
def cfgDtsStringify : ConfigObj :=
  { objId := 0, content := { baseRaw with tsJest := some dtsStringifyGlobals } }

/-- Plugin globals configuring only a secondary babel-jest transform. -/
def babelOnlyGlobals : TsJestGlobals :=
  { stringifyContentPathRegex := none, allowJs := none, babelConfig := true }

/-- A configuration with a secondary babel-jest transform and `allowJs`
left unset. -/
def cfgBabelOnly : ConfigObj :=
  { objId := 0, content := { baseRaw with tsJest := some babelOnlyGlobals } }

/-- A plain configuration object: no plugin globals at all. -/
def cfgPlain : ConfigObj := { objId := 0, content := baseRaw }

/-- Concrete collaborators whose outputs record their inputs, so that what
was passed to them is observable in the result. -/
def cbTag : Collaborators :=
  { compile := fun _ p => "compiled:" ++ p
    babelProcess := fun code fp _ o =>
      "babel(" ++ code ++ "," ++ fp ++ ",instr=" ++
        serializeOpt (fun b => toString b) o.instrument ++ ")" }

/-- Concrete cache-key options over `cfgNameA`. -/
def optsA : CacheKeyOptions :=
  { config := cfgNameA, instrument := some false, rootDir := some "/r" }

/-- A Configuration Set with its allocation identity erased, for comparing
derived content irrespective of object identity. -/
def eraseObjId (cs : ConfigSet) : ConfigSet := { cs with objId := 0 }

/-- A concrete globals object carrying a `ts-jest` key. -/
def heapGlobals0 : GlobalsObj := { tsJest := some htmlGlobals, otherGlobals := [] }

/-- A concrete configuration object on the heap, referencing `heapGlobals0`
at reference 1. -/
def heapConfig0 : ConfigFields :=
  { name := some "proj", cacheDirectory := some "/tmp/cache", rootDir := "/root",
    globalsRef := 1, rest := [] }

/-- A concrete two-object heap. -/
def heap0 : JsHeap :=
  { configObjs := [(0, heapConfig0)], globalsObjs := [(1, heapGlobals0)], nextRef := 2 }

/-! ## Helper lemmas -/

/-- The hexadecimal rendering has exactly the requested width. -/
theorem hexChars_length (k n : Nat) : (hexChars k n).length = k := by
  induction k generalizing n with
  | zero => rfl
  | succ k ih => simp [hexChars, ih]

/-- A hexadecimal digit character is a hexadecimal digit. -/
theorem hexDigit_isHex (m : Nat) (h : m < 16) : isHexDigitChar (hexDigit m) = true := by
  interval_cases m <;> decide

/-- Every character of the hexadecimal rendering is a hexadecimal digit. -/
theorem hexChars_all_hex (k n : Nat) : (hexChars k n).all isHexDigitChar = true := by
  induction k generalizing n with
  | zero => rfl
  | succ k ih =>
    simp only [hexChars, List.all_append, ih, Bool.true_and, List.all_cons, List.all_nil,
      Bool.and_true]
    exact hexDigit_isHex _ (Nat.mod_lt _ (by omega))

/-- The modelled digest always renders as 40 characters. -/
theorem sha1_length (args : List String) : (sha1 args).length = 40 := by
  simpa [sha1, String.length] using hexChars_length 40 (strHash (String.join args).data)

/-- The modelled digest always renders as hexadecimal digits. -/
theorem sha1_all_hex (args : List String) :
    (sha1 args).data.all isHexDigitChar = true := by
  simpa [sha1] using hexChars_all_hex 40 (strHash (String.join args).data)

/-- If `find?` misses a whole cons cell, it misses the head and the tail. -/
theorem find?_cons_none {p : α → Bool} {a : α} {l : List α}
    (h : (a :: l).find? p = none) : p a = false ∧ l.find? p = none := by
  cases hp : p a with
  | false =>
    rw [List.find?_cons_of_neg _ (by simp [hp])] at h
    exact ⟨rfl, h⟩
  | true =>
    rw [List.find?_cons_of_pos _ hp] at h
    cases h

/-- A failed `find?` on a list shifts to the appended tail. -/
theorem find?_append_none {p : α → Bool} {l₁ l₂ : List α}
    (h : l₁.find? p = none) : (l₁ ++ l₂).find? p = l₂.find? p := by
  induction l₁ with
  | nil => rfl
  | cons a l ih =>
    obtain ⟨hp, hl⟩ := find?_cons_none h
    rw [List.cons_append, List.find?_cons_of_neg _ (by simp [hp])]
    exact ih hl

/-- After a successful serialized-form rebind in a registry holding no
identity match, the identity lookup finds exactly the rebound entry. -/
theorem findAndRebind_spec {id : Nat} {ser : String} {cs : ConfigSet} {sig : String}
    {l l' : List CachedConfigSet}
    (hid : l.find? (fun e => e.identity == id) = none)
    (h : findAndRebind id ser l = some (cs, sig, l')) :
    l'.find? (fun e => e.identity == id) =
      some { identity := id, serialized := ser, configSet := cs, transformerCfgStr := sig } := by
  induction l generalizing l' with
  | nil => simp [findAndRebind] at h
  | cons e rest ih =>
    obtain ⟨hpe, hrest⟩ := find?_cons_none hid
    rw [findAndRebind] at h
    by_cases hser : (e.serialized == ser) = true
    · rw [if_pos hser] at h
      simp only [Option.some.injEq, Prod.mk.injEq] at h
      obtain ⟨h1, h2, h3⟩ := h
      subst h3
      rw [List.find?_cons_of_pos _ (by simp)]
      have hs : e.serialized = ser := by simpa using hser
      simp [h1, h2, hs]
    · rw [if_neg hser] at h
      cases hr : findAndRebind id ser rest with
      | none => rw [hr] at h; cases h
      | some triple =>
        obtain ⟨cs', sig', rest'⟩ := triple
        rw [hr] at h
        simp only [Option.some.injEq, Prod.mk.injEq] at h
        obtain ⟨h1, h2, h3⟩ := h
        subst h1
        subst h2
        subst h3
        rw [List.find?_cons_of_neg _ (by simp [hpe])]
        exact ih hrest hr

/-- One `configsFor` call leaves the state at a fixed point for the same
object: a second call with the same object reference returns the same
Configuration Set and signature and changes nothing. -/
theorem configsFor_stable (st : TransformerState) (obj : ConfigObj) :
    configsFor (configsFor st obj).2.2 obj = configsFor st obj := by
  cases h1 : st.cachedConfigSets.find? (fun cs => cs.identity == obj.objId) with
  | some ccs =>
    have e1 : configsFor st obj = (ccs.configSet, ccs.transformerCfgStr, st) := by
      simp [configsFor, h1]
    rw [e1]
    simpa using e1
  | none =>
    cases h2 : findAndRebind obj.objId (serializeConfig obj.content) st.cachedConfigSets with
    | some triple =>
      obtain ⟨cs, sig, l'⟩ := triple
      have e1 : configsFor st obj =
          (cs, sig, ({ st with cachedConfigSets := l' } : TransformerState)) := by
        simp [configsFor, h1, h2]
      have hfind := findAndRebind_spec h1 h2
      rw [e1]
      simp [configsFor, hfind]
    | none =>
      have e1 : configsFor st obj =
          (mkConfigSet st.nextAlloc obj.content,
            mkTransformCfgStr (mkConfigSet st.nextAlloc obj.content) obj.content,
            ({ cachedConfigSets := st.cachedConfigSets ++
                 [⟨obj.objId, serializeConfig obj.content, mkConfigSet st.nextAlloc obj.content,
                   mkTransformCfgStr (mkConfigSet st.nextAlloc obj.content) obj.content⟩],
               nextAlloc := st.nextAlloc + 1 } : TransformerState)) := by
        simp [configsFor, h1, h2]
      rw [e1]
      simp [configsFor, h1]

/-! ## Claim theorems -/

/-- C6: for every state, file content, file path, serialized configuration
argument and cache-key options, `getCacheKey` returns a string of exactly 40
characters, each a hexadecimal digit. -/
theorem getCacheKey_forty_hex (st : TransformerState) (fc fp s : String)
    (o : CacheKeyOptions) :
    ((getCacheKey st fc fp s o).1).length = 40 ∧
      ((getCacheKey st fc fp s o).1).data.all isHexDigitChar = true :=
  ⟨sha1_length _, sha1_all_hex _⟩

/-- From an empty registry, `configsFor` builds a fresh Configuration Set,
signature and single registry entry. -/
theorem configsFor_empty (obj : ConfigObj) :
    configsFor TransformerState.empty obj =
      (mkConfigSet 0 obj.content, mkTransformCfgStr (mkConfigSet 0 obj.content) obj.content,
        ({ cachedConfigSets := [⟨obj.objId, serializeConfig obj.content,
             mkConfigSet 0 obj.content,
             mkTransformCfgStr (mkConfigSet 0 obj.content) obj.content⟩],
           nextAlloc := 1 } : TransformerState)) := by
  simp [configsFor, TransformerState.empty, findAndRebind]

/-- A second call with a differently-identitied but identically-serializing
configuration object hits the serialized-form branch: it reuses the stored
Configuration Set and signature and rebinds the entry's identity. -/
theorem configsFor_second_content_equal (o1 o2 : ConfigObj)
    (hid : o1.objId ≠ o2.objId)
    (hser : serializeConfig o1.content = serializeConfig o2.content) :
    configsFor (configsFor TransformerState.empty o1).2.2 o2 =
      ((configsFor TransformerState.empty o1).1,
        (configsFor TransformerState.empty o1).2.1,
        ({ cachedConfigSets := [⟨o2.objId, serializeConfig o1.content,
             (configsFor TransformerState.empty o1).1,
             (configsFor TransformerState.empty o1).2.1⟩],
           nextAlloc := 1 } : TransformerState)) := by
  have hbeq : (o1.objId == o2.objId) = false := by simp [hid]
  rw [configsFor_empty]
  simp [configsFor, findAndRebind, hbeq, hser]

/-- C4: the configuration-set cache is idempotent. A call with an object
already resolved leaves the state unchanged and returns the same
Configuration Set and signature, so repeated calls with the same reference
never add entries; and a call with a different but identically-serializing
object from a one-entry registry reuses the entry's derived Configuration
Set and transform signature, updates the entry's stored object identity to
the new object, and leaves exactly one entry. -/
theorem configsFor_cache_idempotent :
    (∀ st obj, configsFor (configsFor st obj).2.2 obj = configsFor st obj) ∧
    (∀ o1 o2 : ConfigObj, o1.objId ≠ o2.objId →
      serializeConfig o1.content = serializeConfig o2.content →
      (configsFor (configsFor TransformerState.empty o1).2.2 o2).1 =
          (configsFor TransformerState.empty o1).1 ∧
        (configsFor (configsFor TransformerState.empty o1).2.2 o2).2.1 =
          (configsFor TransformerState.empty o1).2.1 ∧
        ((configsFor (configsFor TransformerState.empty o1).2.2 o2).2.2).cachedConfigSets =
          [⟨o2.objId, serializeConfig o1.content,
            (configsFor TransformerState.empty o1).1,
            (configsFor TransformerState.empty o1).2.1⟩]) := by
  constructor
  · exact configsFor_stable
  · intro o1 o2 hid hser
    rw [configsFor_second_content_equal o1 o2 hid hser]
    exact ⟨rfl, rfl, rfl⟩

/-- C4 witness: the idempotence theorem applied to a concrete object and to
a concrete content-equal pair with distinct identities. -/
theorem configsFor_cache_idempotent_witness :
    configsFor (configsFor TransformerState.empty cfgNameA).2.2 cfgNameA =
        configsFor TransformerState.empty cfgNameA ∧
      ((configsFor (configsFor TransformerState.empty cfgHtml).2.2
            ({ objId := 5, content := cfgHtml.content } : ConfigObj)).1 =
          (configsFor TransformerState.empty cfgHtml).1 ∧
        (configsFor (configsFor TransformerState.empty cfgHtml).2.2
            ({ objId := 5, content := cfgHtml.content } : ConfigObj)).2.1 =
          (configsFor TransformerState.empty cfgHtml).2.1 ∧
        ((configsFor (configsFor TransformerState.empty cfgHtml).2.2
            ({ objId := 5, content := cfgHtml.content } : ConfigObj)).2.2).cachedConfigSets =
          [⟨5, serializeConfig cfgHtml.content,
            (configsFor TransformerState.empty cfgHtml).1,
            (configsFor TransformerState.empty cfgHtml).2.1⟩]) :=
  ⟨configsFor_cache_idempotent.1 TransformerState.empty cfgNameA,
    configsFor_cache_idempotent.2 cfgHtml { objId := 5, content := cfgHtml.content }
      (by decide) (by decide)⟩

/-- C1 counterexample: two configuration objects that are deeply equal
after stripping the name field (they differ only in `name`) do not resolve
to the identical Configuration Set object: the second call builds a fresh
one. -/
theorem configsFor_stripped_equal_not_identical :
    stripConfig cfgNameA.content = stripConfig cfgNameB.content ∧
      (configsFor (configsFor TransformerState.empty cfgNameA).2.2 cfgNameB).1 ≠
        (configsFor TransformerState.empty cfgNameA).1 := by
  exact ⟨by decide, by decide⟩

/-- C1 (amended): for raw configuration objects that are deeply equal
without stripping (identical canonical serialization), `configsFor` returns
the identical Configuration Set object even across distinct object
instances. -/
theorem configsFor_identical_for_serial_equal (a b : ConfigObj)
    (h : serializeConfig a.content = serializeConfig b.content) :
    (configsFor (configsFor TransformerState.empty a).2.2 b).1 =
      (configsFor TransformerState.empty a).1 := by
  by_cases hid : a.objId = b.objId
  · rw [configsFor_empty]
    simp [configsFor, hid]
  · rw [configsFor_second_content_equal a b hid h]

/-- C1 witness: the amended theorem applied to two distinct live objects
with identical content. -/
theorem configsFor_identical_for_serial_equal_witness :
    (configsFor (configsFor TransformerState.empty cfgPlain).2.2
        ({ objId := 7, content := baseRaw } : ConfigObj)).1 =
      (configsFor TransformerState.empty cfgPlain).1 :=
  configsFor_identical_for_serial_equal cfgPlain { objId := 7, content := baseRaw } (by decide)

/-- C5: two raw configurations that differ only in the stripped fields
(name, cache directory, plugin-specific globals) and whose derived
Configuration Sets agree (up to allocation identity) receive equal
transform signatures. -/
theorem transform_signature_stable_under_stripped (a b : ConfigObj)
    (hstrip : stripConfig a.content = stripConfig b.content)
    (hderived : eraseObjId (mkConfigSet 0 a.content) = eraseObjId (mkConfigSet 0 b.content)) :
    (configsFor TransformerState.empty a).2.1 = (configsFor TransformerState.empty b).2.1 := by
  rw [configsFor_empty, configsFor_empty]
  have hdig : (mkConfigSet 0 a.content).tsJestDigest = (mkConfigSet 0 b.content).tsJestDigest :=
    congrArg ConfigSet.tsJestDigest hderived
  have hb : (mkConfigSet 0 a.content).babelConfig = (mkConfigSet 0 b.content).babelConfig :=
    congrArg ConfigSet.babelConfig hderived
  have hallow : (mkConfigSet 0 a.content).allowJs = (mkConfigSet 0 b.content).allowJs :=
    congrArg ConfigSet.allowJs hderived
  have hraw : (mkConfigSet 0 a.content).tsconfigRaw = (mkConfigSet 0 b.content).tsconfigRaw :=
    congrArg ConfigSet.tsconfigRaw hderived
  simp only [mkTransformCfgStr, signaturePayloadStr]
  rw [hstrip, hdig, hb, hallow, hraw]

/-- C5 witness: the signature-stability theorem applied to two
configurations differing only in their name field. -/
theorem transform_signature_stable_under_stripped_witness :
    (configsFor TransformerState.empty cfgNameA).2.1 =
      (configsFor TransformerState.empty cfgNameB).2.1 :=
  transform_signature_stable_under_stripped cfgNameA cfgNameB (by decide) (by decide)

/-- The character data of the cache-key digest input, in separator-cons
normal form. -/
theorem cacheKeyDigestInput_data (cfgStr rd : String) (i : Bool) (fc fp : String) :
    (cacheKeyDigestInput cfgStr rd i fc fp).data =
      cfgStr.data ++ '\x00' :: (rd.data ++ '\x00' :: ((instrStr i).data ++ '\x00' ::
        (fc.data ++ '\x00' :: fp.data))) := by
  have h0 : ("\x00" : String).data = ['\x00'] := rfl
  simp [cacheKeyDigestInput, String.data_append, h0]

/-- Cancelling an equal head segment and its null separator. -/
theorem sep_cancel {p u v : List Char} (h : p ++ '\x00' :: u = p ++ '\x00' :: v) : u = v := by
  have h2 := List.append_cancel_left h
  injection h2

/-- A null-separated equation whose tails have equal length splits into
head and tail equality. -/
theorem seg_head_eq {x y u v : List Char} (h : x ++ '\x00' :: u = y ++ '\x00' :: v)
    (hl : u.length = v.length) : x = y ∧ u = v := by
  have hlen : x.length = y.length := by
    have hL := congrArg List.length h
    simp only [List.length_append, List.length_cons] at hL
    omega
  obtain ⟨h1, h2⟩ := List.append_inj h hlen
  refine ⟨h1, ?_⟩
  injection h2

/-- C2 (amended): repeated `getCacheKey` calls with the same inputs
reproduce the identical key (the first call's state change is a fixed
point); the key is the digest of the null-separated five-dimension input;
and changing any single one of {effective configuration signature, root
directory, instrumentation flag, file content, file path} while holding
the others fixed changes that digest input, hence the key up to collision
resistance of the digest. -/
theorem getCacheKey_contract :
    (∀ st fc fp s o,
      (getCacheKey ((getCacheKey st fc fp s o).2) fc fp s o).1 =
        (getCacheKey st fc fp s o).1) ∧
    (∀ st fc fp s o, (getCacheKey st fc fp s o).1 =
      sha1 [cacheKeyDigestInput ((configsFor st o.config).2.1)
        (o.rootDir.getD ((configsFor st o.config).1).rootDir)
        (o.instrument.getD false) fc fp]) ∧
    (∀ c1 c2 rd i fc fp, c1 ≠ c2 →
      cacheKeyDigestInput c1 rd i fc fp ≠ cacheKeyDigestInput c2 rd i fc fp) ∧
    (∀ c rd1 rd2 i fc fp, rd1 ≠ rd2 →
      cacheKeyDigestInput c rd1 i fc fp ≠ cacheKeyDigestInput c rd2 i fc fp) ∧
    (∀ c rd i1 i2 fc fp, i1 ≠ i2 →
      cacheKeyDigestInput c rd i1 fc fp ≠ cacheKeyDigestInput c rd i2 fc fp) ∧
    (∀ c rd i fc1 fc2 fp, fc1 ≠ fc2 →
      cacheKeyDigestInput c rd i fc1 fp ≠ cacheKeyDigestInput c rd i fc2 fp) ∧
    (∀ c rd i fc fp1 fp2, fp1 ≠ fp2 →
      cacheKeyDigestInput c rd i fc fp1 ≠ cacheKeyDigestInput c rd i fc fp2) := by
  refine ⟨?_, ?_, ?_, ?_, ?_, ?_, ?_⟩
  · intro st fc fp s o
    simp only [getCacheKey]
    rw [configsFor_stable]
  · intro st fc fp s o
    have hjoin : String.join [(configsFor st o.config).2.1, "\x00",
        o.rootDir.getD ((configsFor st o.config).1).rootDir, "\x00",
        instrStr (o.instrument.getD false), "\x00", fc, "\x00", fp] =
        String.join [cacheKeyDigestInput ((configsFor st o.config).2.1)
          (o.rootDir.getD ((configsFor st o.config).1).rootDir)
          (o.instrument.getD false) fc fp] := by
      apply String.ext
      simp [String.join, cacheKeyDigestInput, String.data_append]
    simp only [getCacheKey, sha1]
    rw [hjoin]
  · intro c1 c2 rd i fc fp hne heq
    apply hne
    have hd := congrArg String.data heq
    rw [cacheKeyDigestInput_data, cacheKeyDigestInput_data] at hd
    exact String.ext (seg_head_eq hd rfl).1
  · intro c rd1 rd2 i fc fp hne heq
    apply hne
    have hd := congrArg String.data heq
    rw [cacheKeyDigestInput_data, cacheKeyDigestInput_data] at hd
    exact String.ext (seg_head_eq (sep_cancel hd) rfl).1
  · intro c rd i1 i2 fc fp hne heq
    exfalso
    have hd := congrArg String.data heq
    rw [cacheKeyDigestInput_data, cacheKeyDigestInput_data] at hd
    have hd3 := sep_cancel (sep_cancel hd)
    have hfalse : (instrStr i1).data = (instrStr i2).data := (seg_head_eq hd3 rfl).1
    cases i1 <;> cases i2
    · exact hne rfl
    · exact absurd hfalse (by decide)
    · exact absurd hfalse (by decide)
    · exact hne rfl
  · intro c rd i fc1 fc2 fp hne heq
    apply hne
    have hd := congrArg String.data heq
    rw [cacheKeyDigestInput_data, cacheKeyDigestInput_data] at hd
    exact String.ext (seg_head_eq (sep_cancel (sep_cancel (sep_cancel hd))) rfl).1
  · intro c rd i fc fp1 fp2 hne heq
    apply hne
    have hd := congrArg String.data heq
    rw [cacheKeyDigestInput_data, cacheKeyDigestInput_data] at hd
    exact String.ext (sep_cancel (sep_cancel (sep_cancel (sep_cancel hd))))

/-- C2 counterexample: two invocations whose five-dimension inputs differ
(in file content and file path jointly, straddling a null separator)
return the identical key, so key identity does not imply identity of all
five dimensions. -/
theorem getCacheKey_boundary_collision :
    (getCacheKey TransformerState.empty "a\x00b" "c" "(s)" optsA).1 =
        (getCacheKey TransformerState.empty "a" "b\x00c" "(s)" optsA).1 ∧
      ¬("a\x00b" = "a" ∧ "c" = "b\x00c") := by
  exact ⟨by decide, by decide⟩

/-- C2 witness: the contract theorem applied at concrete inputs. -/
theorem getCacheKey_contract_witness :
    (getCacheKey ((getCacheKey TransformerState.empty "src" "a.ts" "(s)" optsA).2)
          "src" "a.ts" "(s)" optsA).1 =
        (getCacheKey TransformerState.empty "src" "a.ts" "(s)" optsA).1 ∧
      cacheKeyDigestInput "c1" "/r" false "fc" "fp" ≠
        cacheKeyDigestInput "c2" "/r" false "fc" "fp" :=
  ⟨getCacheKey_contract.1 TransformerState.empty "src" "a.ts" "(s)" optsA,
    getCacheKey_contract.2.2.1 "c1" "c2" "/r" false "fc" "fp" (by decide)⟩

/-- C3 (amended): when a secondary babel-jest transform is configured and
the stringify pattern does not match the file, the selected branch's output
is piped through the secondary transform with the instrumentation option
always forced to `false` regardless of the caller-supplied options; the
stringify-as-module branch, by contrast, bypasses the secondary transform
entirely (see the counterexample). -/
theorem process_babel_pipes_instrument_off (cb : Collaborators) (st : TransformerState)
    (input filePath : String) (cfg : ConfigObj) (topts : Option TransformOptions)
    (hb : hasBabelJest (configsFor st cfg).1 = true)
    (hs : shouldStringifyContent (configsFor st cfg).1 filePath = false) :
    (process cb st input filePath cfg topts).1 =
        cb.babelProcess
          (classifyOutput cb (configsFor st cfg).1 true input filePath).1 filePath cfg
          (spreadInstrumentOff topts) ∧
      (spreadInstrumentOff topts).instrument = some false := by
  constructor
  · simp [process, hs, hb]
  · cases topts <;> rfl

/-- C3 counterexample: with both a stringify pattern matching the file and
a secondary babel-jest transform configured, the stringify branch's output
is returned as is — it is not piped through the secondary transform. -/
theorem process_stringify_skips_babel :
    hasBabelJest (configsFor TransformerState.empty cfgStrBabel).1 = true ∧
      (process cbTag TransformerState.empty "x" "foo.html" cfgStrBabel none).1 =
        "module.exports=\"x\"" ∧
      (process cbTag TransformerState.empty "x" "foo.html" cfgStrBabel none).1 ≠
        cbTag.babelProcess "module.exports=\"x\"" "foo.html" cfgStrBabel
          (spreadInstrumentOff none) :=
  ⟨by decide, by decide, by decide⟩

/-- C3 witness: the piping theorem applied to a concrete unknown-extension
file under a babel-configured project. -/
theorem process_babel_pipes_instrument_off_witness :
    (process cbTag TransformerState.empty "foo" "foo.bar" cfgBabelOnly none).1 =
        cbTag.babelProcess
          (classifyOutput cbTag (configsFor TransformerState.empty cfgBabelOnly).1 true
            "foo" "foo.bar").1 "foo.bar" cfgBabelOnly (spreadInstrumentOff none) ∧
      (spreadInstrumentOff none).instrument = some false :=
  process_babel_pipes_instrument_off cbTag TransformerState.empty "foo" "foo.bar" cfgBabelOnly
    none (by decide) (by decide)

/-- C7 (amended): a declaration file produces the empty string whenever the
stringify pattern does not match it and no secondary transform is
configured; and in any case — whatever the configuration resolves to —
declaration files never reach the compiler: the result does not depend on
the compiler collaborator. -/
theorem process_declaration_empty (cb : Collaborators) (st : TransformerState)
    (input filePath : String) (cfg : ConfigObj) (topts : Option TransformOptions)
    (hd : strEndsWith filePath declarationTypeExt = true) :
    (shouldStringifyContent (configsFor st cfg).1 filePath = false →
      hasBabelJest (configsFor st cfg).1 = false →
      (process cb st input filePath cfg topts).1 = "") ∧
      ∀ f, process { cb with compile := f } st input filePath cfg topts =
        process cb st input filePath cfg topts := by
  constructor
  · intro hs hb
    simp [process, classifyOutput, hd, hs, hb]
  · intro f
    cases hs : shouldStringifyContent (configsFor st cfg).1 filePath
    · simp [process, classifyOutput, hd, hs]
    · simp [process, classifyOutput, hs]

/-- C7 counterexample: with a stringify pattern matching `.d.ts` files the
declaration file is stringified rather than emptied, so the claim fails
without the no-stringify proviso. -/
theorem process_declaration_stringify_override :
    strEndsWith "foo.d.ts" declarationTypeExt = true ∧
      (process cbTag TransformerState.empty "x" "foo.d.ts" cfgDtsStringify none).1 =
        "module.exports=\"x\"" ∧
      (process cbTag TransformerState.empty "x" "foo.d.ts" cfgDtsStringify none).1 ≠ "" :=
  ⟨by decide, by decide, by decide⟩

/-- C7 witness: the declaration theorem applied to a concrete declaration
file under a plain configuration. -/
theorem process_declaration_empty_witness :
    (shouldStringifyContent (configsFor TransformerState.empty cfgPlain).1 "foo.d.ts" = false →
      hasBabelJest (configsFor TransformerState.empty cfgPlain).1 = false →
      (process cbTag TransformerState.empty "type Foo = number" "foo.d.ts" cfgPlain none).1 =
        "") ∧
      ∀ f, process { cbTag with compile := f } TransformerState.empty "type Foo = number"
          "foo.d.ts" cfgPlain none =
        process cbTag TransformerState.empty "type Foo = number" "foo.d.ts" cfgPlain none :=
  process_declaration_empty cbTag TransformerState.empty "type Foo = number" "foo.d.ts" cfgPlain
    none (by decide)

/-- C8: whenever the stringify pattern matches the file path, `process`
returns a module body of `module.exports=` followed by the JSON-stringified
original content, independent of the compiler collaborator; in particular
the content `<h1>Hello World</h1>` at `foo.html` yields exactly the quoted
module body. -/
theorem process_stringify_module :
    (∀ cb st input filePath cfg topts,
      shouldStringifyContent (configsFor st cfg).1 filePath = true →
      (process cb st input filePath cfg topts).1 =
          "module.exports=" ++ stringifyString input ∧
        ∀ f, process { cb with compile := f } st input filePath cfg topts =
          process cb st input filePath cfg topts) ∧
    (process cbTag TransformerState.empty "<h1>Hello World</h1>" "foo.html" cfgHtml none).1 =
      "module.exports=\"<h1>Hello World</h1>\"" := by
  constructor
  · intro cb st input filePath cfg topts hs
    constructor
    · simp [process, classifyOutput, hs]
    · intro f
      simp [process, classifyOutput, hs]
  · decide

/-- C8 witness: the stringify theorem applied at the `foo.html` example. -/
theorem process_stringify_module_witness :
    (process cbTag TransformerState.empty "<h1>Hello World</h1>" "foo.html" cfgHtml none).1 =
        "module.exports=" ++ stringifyString "<h1>Hello World</h1>" ∧
      ∀ f, process { cbTag with compile := f } TransformerState.empty "<h1>Hello World</h1>"
          "foo.html" cfgHtml none =
        process cbTag TransformerState.empty "<h1>Hello World</h1>" "foo.html" cfgHtml none :=
  process_stringify_module.1 cbTag TransformerState.empty "<h1>Hello World</h1>" "foo.html"
    cfgHtml none (by decide)

/-- C9 (amended): a JS/JSX file with `allowJs` unset or false that is not
stringified and not a declaration file always causes exactly one warning
record, tagged with the file path and rendering to text embedding the path
between the fixed remediation phrases — whether or not a secondary
transform is configured; the content is returned unchanged when no
secondary transform is configured; `process` is total here — this case
warns and never raises. -/
theorem process_disallowed_js_warn (cb : Collaborators) (st : TransformerState)
    (input filePath : String) (cfg : ConfigObj) (topts : Option TransformOptions)
    (hjs : isJsPath filePath = true)
    (hallow : (configsFor st cfg).1.allowJs = false)
    (hstr : shouldStringifyContent (configsFor st cfg).1 filePath = false)
    (hdecl : strEndsWith filePath declarationTypeExt = false) :
    (process cb st input filePath cfg topts).2.1 =
        [⟨filePath, WarnMessage.gotJsFileButAllowJsFalse⟩] ∧
      (hasBabelJest (configsFor st cfg).1 = false →
        (process cb st input filePath cfg topts).1 = input) ∧
      renderWarn ⟨filePath, WarnMessage.gotJsFileButAllowJsFalse⟩ =
        allowJsWarnHead ++ filePath ++ allowJsWarnTail := by
  refine ⟨?_, ?_, rfl⟩
  · simp [process, classifyOutput, hjs, hallow, hstr, hdecl]
  · intro hb
    simp [process, classifyOutput, hjs, hallow, hstr, hdecl, hb]

/-- C9 counterexample: under the claim's stated conditions but with a
secondary babel-jest transform configured, the returned code is the
secondary transform's output, not the original content. -/
theorem process_disallowed_js_babel_changes :
    isJsPath "foo.js" = true ∧
      (configsFor TransformerState.empty cfgBabelOnly).1.allowJs = false ∧
      shouldStringifyContent (configsFor TransformerState.empty cfgBabelOnly).1 "foo.js" =
        false ∧
      strEndsWith "foo.js" declarationTypeExt = false ∧
      (process cbTag TransformerState.empty "const foo = 1" "foo.js" cfgBabelOnly none).1 ≠
        "const foo = 1" :=
  ⟨by decide, by decide, by decide, by decide, by decide⟩

/-- C9 witness: the disallowed-JS theorem applied to a concrete `.js` file
under a plain configuration. -/
theorem process_disallowed_js_warn_witness :
    (process cbTag TransformerState.empty "const foo = 1" "foo.js" cfgPlain none).2.1 =
        [⟨"foo.js", WarnMessage.gotJsFileButAllowJsFalse⟩] ∧
      (hasBabelJest (configsFor TransformerState.empty cfgPlain).1 = false →
        (process cbTag TransformerState.empty "const foo = 1" "foo.js" cfgPlain none).1 =
          "const foo = 1") ∧
      renderWarn ⟨"foo.js", WarnMessage.gotJsFileButAllowJsFalse⟩ =
        allowJsWarnHead ++ "foo.js" ++ allowJsWarnTail :=
  process_disallowed_js_warn cbTag TransformerState.empty "const foo = 1" "foo.js" cfgPlain none
    (by decide) (by decide) (by decide) (by decide)

/-- A successful `lookup` means the key-value pair is stored. -/
theorem lookup_mem {l : List (Nat × α)} {k : Nat} {v : α}
    (h : List.lookup k l = some v) : (k, v) ∈ l := by
  induction l with
  | nil => cases h
  | cons p rest ih =>
    obtain ⟨k', v'⟩ := p
    by_cases hk : k = k'
    · subst hk
      simp [List.lookup] at h
      subst h
      exact List.mem_cons_self _ _
    · have hb : (k == k') = false := by simp [hk]
      rw [List.lookup, hb] at h
      exact List.mem_cons_of_mem _ (ih h)

/-- `lookup` ignores a cons cell with a different key. -/
theorem lookup_cons_ne {k k' : Nat} {v : α} {l : List (Nat × α)} (h : k ≠ k') :
    List.lookup k ((k', v) :: l) = List.lookup k l := by
  have hb : (k == k') = false := by simp [h]
  rw [List.lookup, hb]

/-- Updating the object stored at a different reference does not change a
lookup. -/
theorem lookup_updateAssoc_ne {k k' : Nat} {v : α} {l : List (Nat × α)} (h : k ≠ k') :
    List.lookup k (updateAssoc k' v l) = List.lookup k l := by
  induction l with
  | nil => rfl
  | cons p rest ih =>
    obtain ⟨k0, v0⟩ := p
    rw [updateAssoc]
    by_cases h0 : k0 = k'
    · subst h0
      rw [if_pos rfl, lookup_cons_ne h, lookup_cons_ne h]
    · rw [if_neg h0]
      by_cases hk : k = k0
      · subst hk
        simp [List.lookup]
      · rw [lookup_cons_ne hk, lookup_cons_ne hk]
        exact ih

/-- Every key stored in a bounded association list is bounded. -/
theorem key_lt_of_lookup {l : List (Nat × α)} {k n : Nat} {v : α}
    (hb : l.all (fun kv => kv.1 < n) = true) (h : List.lookup k l = some v) : k < n := by
  have hm := lookup_mem h
  have := List.all_eq_true.1 hb _ hm
  simpa using this

/-- The heap-level signature computation allocates two fresh objects,
mutates only those, and returns the pure transform signature of the
original configuration content. -/
theorem computeTransformCfgStrOnHeap_eq (h : JsHeap) (cfgRef : Nat) (cs : ConfigSet)
    (f : ConfigFields) (g : GlobalsObj)
    (hf : List.lookup cfgRef h.configObjs = some f)
    (hg : List.lookup f.globalsRef h.globalsObjs = some g) :
    computeTransformCfgStrOnHeap h cfgRef cs =
      (({ configObjs :=
            (h.nextRef, (⟨none, none, f.rootDir, h.nextRef + 1, f.rest⟩ : ConfigFields)) ::
              h.configObjs
          globalsObjs :=
            (h.nextRef + 1, (⟨none, g.otherGlobals⟩ : GlobalsObj)) :: h.globalsObjs
          nextRef := h.nextRef + 1 + 1 } : JsHeap),
        some (signaturePayloadStr cs (stripConfig (configOnHeap f g)))) := by
  simp [computeTransformCfgStrOnHeap, hf, hg, updateAssoc, List.lookup, configOnHeap,
    stripConfig]

/-- C10: the transform-signature computation never mutates the caller's raw
configuration: on any bounded heap, after the computation the caller's
configuration object and its globals object (including the `ts-jest` key)
are stored unchanged, because only the two freshly allocated shallow copies
are mutated; and the computed signature equals the pure transform signature
of the original configuration content. -/
theorem signature_computation_no_mutation (h : JsHeap) (cfgRef : Nat) (cs : ConfigSet)
    (f : ConfigFields) (g : GlobalsObj)
    (hf : List.lookup cfgRef h.configObjs = some f)
    (hg : List.lookup f.globalsRef h.globalsObjs = some g)
    (hbc : h.configObjs.all (fun kv => kv.1 < h.nextRef) = true)
    (hbg : h.globalsObjs.all (fun kv => kv.1 < h.nextRef) = true) :
    List.lookup cfgRef (computeTransformCfgStrOnHeap h cfgRef cs).1.configObjs = some f ∧
      List.lookup f.globalsRef (computeTransformCfgStrOnHeap h cfgRef cs).1.globalsObjs =
        some g ∧
      (computeTransformCfgStrOnHeap h cfgRef cs).2 =
        some (mkTransformCfgStr cs (configOnHeap f g)) := by
  have hck : cfgRef < h.nextRef := key_lt_of_lookup hbc hf
  have hgk : f.globalsRef < h.nextRef := key_lt_of_lookup hbg hg
  rw [computeTransformCfgStrOnHeap_eq h cfgRef cs f g hf hg]
  refine ⟨?_, ?_, ?_⟩
  · rw [lookup_cons_ne (by omega)]
    exact hf
  · rw [lookup_cons_ne (by omega)]
    exact hg
  · rw [mkTransformCfgStr]

/-- C10 witness: the no-mutation theorem applied to a concrete heap holding
one configuration object with a named project, a cache directory and
`ts-jest` globals. -/
theorem signature_computation_no_mutation_witness :
    List.lookup 0 (computeTransformCfgStrOnHeap heap0 0
          (mkConfigSet 0 (configOnHeap heapConfig0 heapGlobals0))).1.configObjs =
        some heapConfig0 ∧
      List.lookup heapConfig0.globalsRef (computeTransformCfgStrOnHeap heap0 0
          (mkConfigSet 0 (configOnHeap heapConfig0 heapGlobals0))).1.globalsObjs =
        some heapGlobals0 ∧
      (computeTransformCfgStrOnHeap heap0 0
          (mkConfigSet 0 (configOnHeap heapConfig0 heapGlobals0))).2 =
        some (mkTransformCfgStr (mkConfigSet 0 (configOnHeap heapConfig0 heapGlobals0))
          (configOnHeap heapConfig0 heapGlobals0)) :=
  signature_computation_no_mutation heap0 0
    (mkConfigSet 0 (configOnHeap heapConfig0 heapGlobals0)) heapConfig0 heapGlobals0
    (by decide) (by decide) (by decide) (by decide)
